import Mathlib

/-!
Shallow embedding of the `pi` project-skeleton generator (legion-labs/project-init)
for checking its natural-language specification against the code.

The sources embedded here are `src/types.rs`, `src/util.rs`, `src/lib.rs`,
`src/render.rs` and `src/repo.rs`.  Pure computations (configuration
resolution, substitution-context construction, license/VCS selection,
command-string construction) are translated directly into Lean functions.
Filesystem and process interaction is modelled by an explicit environment
(`Env`) of oracles plus a trace of emitted `Effect`s, and early process
termination (`std::process::exit`) and panics are modelled by `RunResult`.
-/

namespace ProjectInit

/-- Closed license enumeration from `types.rs` (`enum License`); the
serde `other` catch-all variant is `unknown`. -/
inductive License
  | bsd3
  | bsd
  | gpl3
  | mit
  | allRightsReserved
  | unknown
deriving DecidableEq, Repr

/-- Display implementation for `License` from `types.rs` (used by
`util.rs` when inserting the `license` context key). -/
def License.display : License → String
  | License.bsd3 => "BSD3"
  | License.bsd => "BSD"
  | License.gpl3 => "GPL3"
  | License.mit => "MIT"
  | License.allRightsReserved => "All Rights Reserved"
  | License.unknown => "Unknown License"

/-- Closed version-control enumeration from `types.rs` (`enum VersionControl`);
the serde `other` catch-all variant is `unknown`. -/
inductive VersionControl
  | git
  | hg
  | mercurial
  | pijul
  | darcs
  | unknown
deriving DecidableEq, Repr

/-- Minimal model of a `toml::Value` as used by the custom-keys code:
`as_str` succeeds exactly on `str`, and the custom-keys field is matched
against the `table` constructor. -/
inductive TomlV
  | str (s : String)
  | int (n : Int)
  | boolean (b : Bool)
  | table (entries : List (String × TomlV))
  | other

/-- Custom user keys wrapper from `types.rs` (`struct CustomKeys`,
also called `user` in the `lib.rs` variant). -/
structure CustomKeys where
  toml : TomlV

/-- Author identity from `types.rs` (`struct Author`). -/
structure Author where
  name : String
  email : String
  github_username : Option String

/-- Global configuration from `types.rs` (`struct Config`).  `author` is
an `Option` following its use in `util.rs` and `main.rs`; the
`templates_repository` pointer (external collaborator, unused by any
claim) is modelled as its raw string. -/
structure Config where
  version_control : Option VersionControl
  author : Option Author
  license : Option License
  custom_keys : Option CustomKeys
  templates_repository : Option String

/-- Default global configuration used when the global settings file is
missing (`Config::default()` with every optional field absent). -/
def Config.default : Config :=
  { version_control := none, author := none, license := none,
    custom_keys := none, templates_repository := none }

/-- Directory/file/template/script lists from `types.rs`
(`struct Directory`); paths are modelled as strings. -/
structure Directory where
  files : Option (List String)
  directories : Option (List String)
  templates : Option (List String)
  scripts : Option (List String)

/-- Project-specific configuration from `types.rs` (`struct ProjectConfig`). -/
structure ProjectConfig where
  version_control : Option VersionControl
  version : Option String

/-- Project manifest from `types.rs` (`struct Project`); `path` is the
resolved template base path set at load time by `Project::from_path`. -/
structure Project where
  license : Option License
  with_readme : Bool
  files : Directory
  config : Option ProjectConfig
  custom_keys : Option CustomKeys
  path : String

/-- Substitution values held by the rustache `HashBuilder`: strings,
integers (the year) and string lists (the files list). -/
inductive VarValue
  | str (s : String)
  | int (n : Int)
  | list (xs : List String)
deriving DecidableEq, Repr

/-- Substitution context: an insertion-ordered key-value list, most
recent insertion first (modelling the rustache `HashBuilder`, whose
`insert` replaces any earlier binding of the same key). -/
def Ctx : Type := List (String × VarValue)

/-- Insert a binding; the new binding shadows any earlier one, as a map
insert does. -/
def ctxInsert (ctx : Ctx) (k : String) (v : VarValue) : Ctx :=
  (k, v) :: ctx

/-- Look up the most recently inserted binding of a key. -/
def ctxLookup : Ctx → String → Option VarValue
  | [], _ => none
  | (k', v) :: rest, k => if k' = k then some v else ctxLookup rest k

/-- Result of running a pipeline step: normal completion, process exit
with a status code (`std::process::exit`), or a panic (`unwrap`/`expect`). -/
inductive RunResult (α : Type)
  | ok (a : α)
  | exited (code : Nat)
  | panicked
deriving DecidableEq, Repr

/-- Outcome of opening and reading a file: the open call fails, the open
succeeds but reading fails, or the content is obtained. -/
inductive ReadOutcome
  | openFail
  | readFail
  | content (s : String)
deriving DecidableEq, Repr

/-- Modelled from the spec: five built-in license texts and one README
template are compiled into the binary from `src/includes/licenses/*` and
`src/includes/README.md`, which are not present under `src/`; distinct
placeholder contents stand in for each text.  This is the BSD3 text. -/
def BSD3 : String := "<built-in BSD3 license text>"

/-- Modelled from the spec: the built-in BSD (2-clause) license text. -/
def BSD : String := "<built-in BSD license text>"

/-- Modelled from the spec: the built-in GPL3 license text. -/
def GPL3 : String := "<built-in GPL3 license text>"

/-- Modelled from the spec: the built-in MIT license text. -/
def MIT : String := "<built-in MIT license text>"

/-- Modelled from the spec: the built-in AllRightsReserved license text. -/
def ALL_RIGHTS_RESERVED : String := "<built-in AllRightsReserved license text>"

/-- Modelled from the spec: the built-in README template. -/
def README : String := "<built-in README template>"

/-- License-contents selection from `util.rs` lines 54-72: `None` and
`Unknown` yield no contents (license emission skipped); each known
variant selects its own built-in text. -/
def licenseContents : Option License → Option String
  | none => none
  | some License.unknown => none
  | some License.bsd3 => some BSD3
  | some License.bsd => some BSD
  | some License.mit => some MIT
  | some License.gpl3 => some GPL3
  | some License.allRightsReserved => some ALL_RIGHTS_RESERVED

/-- License resolution for one license string in the `lib.rs` variant
(`init_helper`, lines 141-165): the five recognized names select their
contents and display name (with `GPL3` displayed as the misspelled
`GLP3`, and `AllRightsReserved` selecting the BSD3 contents), and any
other string warns and selects the AllRightsReserved contents. -/
def licenseFromStr (l : String) : Option String × String :=
  if l = "BSD3" then (some BSD3, "BSD3")
  else if l = "BSD" then (some BSD, "BSD")
  else if l = "MIT" then (some MIT, "MIT")
  else if l = "GPL3" then (some GPL3, "GLP3")
  else if l = "AllRightsReserved" then (some BSD3, "AllRightsReserved")
  else (some ALL_RIGHTS_RESERVED, "AllRightsReserved")

/-- License resolution in the `lib.rs` variant: the manifest's license
string is preferred, else the global configuration's, else no license. -/
def licenseResolutionLib (projectLicense globalLicense : Option String) :
    Option String × String :=
  match projectLicense with
  | some l => licenseFromStr l
  | none =>
    match globalLicense with
    | some l => licenseFromStr l
    | none => (none, "")

/-- Version-control resolution from `util.rs` lines 207-209:
`project_config.and_then(version_control).or(config.version_control)`. -/
def resolveVersionControl (project_config : Option ProjectConfig)
    (global : Option VersionControl) : Option VersionControl :=
  match project_config with
  | some pc =>
    match pc.version_control with
    | some vc => some vc
    | none => global
  | none => global

/-- Project configuration in the `lib.rs` variant, where the fields are
raw strings. -/
structure ProjectConfigL where
  version_control : Option String
  version : Option String

/-- Version-control selection in the `lib.rs` variant (`init_helper`
lines 283-313): when the manifest carries a config section, only its own
`version_control` field is consulted (the global value is ignored even
if the section omits the field); only when the manifest has no config
section at all does the global value apply.  `none` means the VCS step
is skipped. -/
def vcSelectedLib (parsed_config : Option ProjectConfigL)
    (decoded_vc : Option String) : Option String :=
  match parsed_config with
  | some c => c.version_control
  | none => decoded_vc

/-- Global configuration in the `lib.rs` variant, following the literal
constructed by `read_toml_config` (fields `version_control`, `author`,
`license`, `user`, with the license and version control as raw strings). -/
structure ConfigL where
  version_control : Option String
  author : Option Author
  license : Option String
  user : Option CustomKeys

/-- Default `lib.rs`-variant configuration (every field absent). -/
def ConfigL.default : ConfigL :=
  { version_control := none, author := none, license := none, user := none }

/-- Extraction of the custom-keys table (`util.rs` lines 101-115): only a
`Some` wrapper whose `toml` value is a table yields entries. -/
def customTable : Option CustomKeys → Option (List (String × TomlV))
  | some ck =>
    match ck.toml with
    | TomlV.table t => some t
    | _ => none
  | none => none

/-- Modelled from the `case` crate's `to_capitalized` used by both
`init_helper` variants for the `Project` context key. -/
def toCapitalized (s : String) : String := s.capitalize

/-- Modelled from the `heck` crate's `to_upper_camel_case` used by both
`init_helper` variants for the `ProjectCamelCase` context key. -/
def toUpperCamelCase (s : String) : String :=
  String.join ((s.split fun c => c = '_' || c = '-' || c = ' ').map String.capitalize)

/-- Custom-key folding loop from `util.rs` lines 121-136: each entry of a
table is inserted into the context when its value is a string
(`value.as_str()`), in table order; non-string values are skipped. -/
def insertCustoms (keys : Ctx) : List (String × TomlV) → Ctx
  | [] => keys
  | (k, v) :: rest =>
    match v with
    | TomlV.str s => insertCustoms (ctxInsert keys k (VarValue.str s)) rest
    | _ => insertCustoms keys rest

/-- Substitution-context construction from `util.rs` lines 117-161:
project custom keys first, then global custom keys, then the reserved
keys (`project`, `Project`, `ProjectCamelCase`, `year`, `version`,
`github_username`, `date`, then `name`/`email` from the author or empty
strings, then `license` only when a license was resolved). -/
def buildKeys (name : String) (year : Int) (formatted_date : String)
    (version github_username : String) (author : Option Author)
    (license : Option License)
    (custom customGlobal : Option (List (String × TomlV))) : Ctx :=
  let keys : Ctx := []
  let keys := match custom with
    | some t => insertCustoms keys t
    | none => keys
  let keys := match customGlobal with
    | some t => insertCustoms keys t
    | none => keys
  let keys := ctxInsert keys "project" (VarValue.str name)
  let keys := ctxInsert keys "Project" (VarValue.str (toCapitalized name))
  let keys := ctxInsert keys "ProjectCamelCase" (VarValue.str (toUpperCamelCase name))
  let keys := ctxInsert keys "year" (VarValue.int year)
  let keys := ctxInsert keys "version" (VarValue.str version)
  let keys := ctxInsert keys "github_username" (VarValue.str github_username)
  let keys := ctxInsert keys "date" (VarValue.str formatted_date)
  let keys := match author with
    | some a => ctxInsert (ctxInsert keys "name" (VarValue.str a.name)) "email" (VarValue.str a.email)
    | none => ctxInsert (ctxInsert keys "name" (VarValue.str "")) "email" (VarValue.str "")
  match license with
  | some l => ctxInsert keys "license" (VarValue.str l.display)
  | none => keys

/-- Reserved context keys named by the specification (section 4.2) as
authoritative over colliding custom keys. -/
def reservedKeyNames : List String :=
  ["project", "Project", "ProjectCamelCase", "year", "name", "version",
   "email", "github_username", "license", "date"]

/-- Opening curly brace character, written by code point to keep brace
characters out of literals. -/
def lbrace : Char := Char.ofNat 123

/-- Closing curly brace character, written by code point. -/
def rbrace : Char := Char.ofNat 125

/-- Scan a variable name up to a double closing brace, returning the name
and the remaining characters. -/
def scanKey (acc : List Char) : List Char → Option (String × List Char)
  | [] => none
  | c :: cs =>
    if c = rbrace then
      match cs with
      | c2 :: cs2 =>
        if c2 = rbrace then some (String.mk acc.reverse, cs2)
        else scanKey (acc ++ [c]) cs
      | [] => none
    else scanKey (acc ++ [c]) cs

/-- Characters substituted for a context value during interpolation: a
string's characters, an integer's decimal text, and nothing for an
absent key or a list value (lists are only consumed by section syntax,
which no claim depends on). -/
def valChars : Option VarValue → List Char
  | some (VarValue.str s) => s.data
  | some (VarValue.int n) => (toString n).data
  | some (VarValue.list _) => []
  | none => []

/-- Fuel-bounded interpolation loop over a character list; a double
opening brace starts a token, which is replaced by the looked-up value. -/
def renderLoop (ctx : Ctx) : Nat → List Char → List Char
  | 0, cs => cs
  | _ + 1, [] => []
  | fuel + 1, c :: cs =>
    if c = lbrace then
      match cs with
      | c2 :: cs2 =>
        if c2 = lbrace then
          match scanKey [] cs2 with
          | some (key, rest) => valChars (ctxLookup ctx key) ++ renderLoop ctx fuel rest
          | none => c :: renderLoop ctx fuel cs
        else c :: renderLoop ctx fuel cs
      | [] => [c]
    else c :: renderLoop ctx fuel cs

/-- Modelled from the rustache crate's `HashBuilder::render` used
throughout `render.rs`: plain mustache-style interpolation of
double-braced tokens, with absent keys rendering as empty; section and
iteration syntax is not modelled, as no claim depends on it. -/
def renderStr (ctx : Ctx) (s : String) : String :=
  String.mk (renderLoop ctx s.data.length s.data)

/-- Path join for the relative paths used by the pipeline
(`Path::join` with a relative right-hand side). -/
def pathJoin (a b : String) : String := a ++ "/" ++ b

/-- Filesystem and process effects emitted by the pipeline, in order. -/
inductive Effect
  | mkdir (path : String)
  | createFile (path : String)
  | fileWrite (path : String) (contents : String) (ok : Bool)
  | setExec (path : String)
  | readTemplate (path : String)
  | spawn (program : String) (args : List String)
deriving DecidableEq, Repr

/-- Oracle environment standing for the filesystem and process spawning:
whether a path exists, the outcome of opening and reading a file, whether
`File::create` succeeds on a path, whether the subsequent write call
succeeds, and whether spawning a program succeeds. -/
structure Env where
  pathExists : String → Bool
  readTemplate : String → ReadOutcome
  createOk : String → Bool
  writeOk : String → Bool
  spawnOk : String → Bool

/-- Shell command string built by `git_init` in `repo.rs`:
`cd NAME&&git init && git add *`. -/
def gitInitCmd (name : String) : String :=
  "cd " ++ name ++ "&&" ++ "git init && git add *"

/-- Shell command string built by `hg_init` in `repo.rs`. -/
def hgInitCmd (name : String) : String :=
  "cd " ++ name ++ "&&" ++ "hg init && hg add *"

/-- Shell command string built by `pijul_init` in `repo.rs`. -/
def pijulInitCmd (name : String) : String :=
  "cd " ++ name ++ "&&" ++ "pijul init && pijul add **"

/-- Shell command string built by `darcs_init` in `repo.rs`. -/
def darcsInitCmd (name : String) : String :=
  "cd " ++ name ++ "&&" ++ "darcs init && darcs add **"

/-- An external process invocation: the program handed to
`Command::new` and its argument vector. -/
structure SpawnedProcess where
  program : String
  args : List String
deriving DecidableEq, Repr

/-- Process spawned by `git_init` (`repo.rs` lines 5-30):
`sh -c` running the git command sequence. -/
def gitInitSpawn (name : String) : SpawnedProcess :=
  { program := "sh", args := ["-c", gitInitCmd name] }

/-- Process spawned by `hg_init` (`repo.rs` lines 86-111). -/
def hgInitSpawn (name : String) : SpawnedProcess :=
  { program := "sh", args := ["-c", hgInitCmd name] }

/-- Process spawned by `pijul_init` (`repo.rs` lines 32-57). -/
def pijulInitSpawn (name : String) : SpawnedProcess :=
  { program := "sh", args := ["-c", pijulInitCmd name] }

/-- Process spawned by `darcs_init` (`repo.rs` lines 59-84). -/
def darcsInitSpawn (name : String) : SpawnedProcess :=
  { program := "sh", args := ["-c", darcsInitCmd name] }

/-- Run one of the `repo.rs` init functions: a successful spawn emits the
process invocation and the parent waits for it (its exit status is not
inspected); a spawn failure prints an error and exits with status
`0x0f01`. -/
def runSpawn (env : Env) (p : SpawnedProcess) : RunResult Unit × List Effect :=
  if env.spawnOk p.program then
    (RunResult.ok (), [Effect.spawn p.program p.args])
  else
    (RunResult.exited 0x0f01, [])

/-- Version-control dispatch from `util.rs` lines 212-219: git, hg and
mercurial, pijul and darcs run their `repo.rs` init functions; the
unknown variant only warns. -/
def vcsDispatch (env : Env) (vc : VersionControl) (name : String) :
    RunResult Unit × List Effect :=
  match vc with
  | VersionControl.git => runSpawn env (gitInitSpawn name)
  | VersionControl.hg => runSpawn env (hgInitSpawn name)
  | VersionControl.mercurial => runSpawn env (hgInitSpawn name)
  | VersionControl.pijul => runSpawn env (pijulInitSpawn name)
  | VersionControl.darcs => runSpawn env (darcsInitSpawn name)
  | VersionControl.unknown => (RunResult.ok (), [])

/-- The VCS step of `init_helper`: dispatch when a tool was resolved,
otherwise do nothing. -/
def vcsStep (env : Env) (version_control : Option VersionControl)
    (name : String) : RunResult Unit × List Effect :=
  match version_control with
  | some vc => vcsDispatch env vc name
  | none => (RunResult.ok (), [])

/-- Directory materialization from `render.rs` `render_dirs`: each
directory path template is rendered with the context and a non-recursive
`create_dir` under the target is attempted, its failure swallowed. -/
def render_dirs (directories : List String) (keys : Ctx) (name : String) :
    List Effect :=
  directories.map fun dir => Effect.mkdir (pathJoin name (renderStr keys dir))

/-- Sequential `File::create(name.join(path)).unwrap()` loop from
`render_files`: the first creation failure panics. -/
def createAll (env : Env) (name : String) : List String → RunResult Unit × List Effect
  | [] => (RunResult.ok (), [])
  | p :: rest =>
    let full := pathJoin name p
    if env.createOk full then
      let next := createAll env name rest
      (next.1, Effect.createFile full :: next.2)
    else
      (RunResult.panicked, [])

/-- File materialization from `render.rs` `render_files`: all file path
templates are rendered first, then each file is created (panicking on
failure), and the list of substituted names is returned for the `files`
context key. -/
def render_files (env : Env) (files : List String) (keys : Ctx) (name : String) :
    RunResult (List String) × List Effect :=
  let substitutions := files.map fun file => renderStr keys file
  let created := createAll env name substitutions
  match created.1 with
  | RunResult.ok _ => (RunResult.ok substitutions, created.2)
  | RunResult.exited c => (RunResult.exited c, created.2)
  | RunResult.panicked => (RunResult.panicked, created.2)

/-- Static-template emission from `render.rs` `render_file` (used for
LICENSE and README.md): the template is rendered with the context and the
destination is created; a creation failure exits with status `0x0f01`,
and the error of the write call itself is discarded (`let _ =`). -/
def render_file (env : Env) (static_template : String) (name : String)
    (filename : String) (keys : Ctx) : RunResult Unit × List Effect :=
  let contents := renderStr keys static_template
  let path := pathJoin name filename
  if env.createOk path then
    (RunResult.ok (), [Effect.createFile path, Effect.fileWrite path contents (env.writeOk path)])
  else
    (RunResult.exited 0x0f01, [])

/-- License-emission step shared by both `init_helper` variants: when
contents were selected, emit them as `LICENSE`; otherwise do nothing. -/
def licenseStep (env : Env) (license_contents : Option String) (name : String)
    (keys : Ctx) : RunResult Unit × List Effect :=
  match license_contents with
  | some lic => render_file env lic name "LICENSE" keys
  | none => (RunResult.ok (), [])

/-- Sequential read phase of `render_templates`: each source is opened
and fully read; an open failure exits with status `0x0f00`, and a read
failure after a successful open panics (`expect`). -/
def readAll (env : Env) : List String → RunResult (List String) × List Effect
  | [] => (RunResult.ok [], [])
  | p :: rest =>
    match env.readTemplate p with
    | ReadOutcome.openFail => (RunResult.exited 0x0f00, [])
    | ReadOutcome.readFail => (RunResult.panicked, [Effect.readTemplate p])
    | ReadOutcome.content s =>
      let next := readAll env rest
      match next.1 with
      | RunResult.ok ss => (RunResult.ok (s :: ss), Effect.readTemplate p :: next.2)
      | RunResult.exited c => (RunResult.exited c, Effect.readTemplate p :: next.2)
      | RunResult.panicked => (RunResult.panicked, Effect.readTemplate p :: next.2)

/-- Sequential write phase of `render_templates`: each destination is
created (a failure exits with status `0x0f01`), the rendered bytes are
written with the write call's error discarded (`let _ =`), and on the
non-windows build an executable destination is chmodded to 0755. -/
def writeAll (env : Env) (executable : Bool) :
    List (String × String) → RunResult Unit × List Effect
  | [] => (RunResult.ok (), [])
  | (path, contents) :: rest =>
    if env.createOk path then
      let pre := [Effect.createFile path, Effect.fileWrite path contents (env.writeOk path)]
      let pre := if executable then pre ++ [Effect.setExec path] else pre
      let next := writeAll env executable rest
      (next.1, pre ++ next.2)
    else
      (RunResult.exited 0x0f01, [])

/-- Template rendering from `render.rs` `render_templates` (non-windows
variant): with no template list the step does nothing; otherwise every
source under the manifest base path is opened and fully read, then every
destination name and every content string is rendered with the context,
and finally each destination is created and written in order. -/
def render_templates (env : Env) (project_path : String) (name : String)
    (keys : Ctx) (templates : Option (List String)) (executable : Bool) :
    RunResult Unit × List Effect :=
  match templates with
  | none => (RunResult.ok (), [])
  | some original_templates =>
    let paths := original_templates.map fun file => pathJoin project_path file
    let readPhase := readAll env paths
    match readPhase.1 with
    | RunResult.ok template_files =>
      let templates_named := original_templates.map fun file =>
        renderStr keys (pathJoin name file)
      let substitutions := template_files.map fun file => renderStr keys file
      let writePhase := writeAll env executable (templates_named.zip substitutions)
      (writePhase.1, readPhase.2 ++ writePhase.2)
    | RunResult.exited c => (RunResult.exited c, readPhase.2)
    | RunResult.panicked => (RunResult.panicked, readPhase.2)

/-- Main orchestrator from `util.rs` (`init_helper`): resolves license,
version, github username and custom keys, builds the substitution
context, aborts with status `0x0f00` when the target exists and `force`
is unset (before any filesystem mutation), then creates the target
directory and the declared directories and files, emits LICENSE and
README.md, extends the context with the `files` list, renders templates
and scripts, and finally dispatches version control.  The current year
and the zero-based month-day-year date string, computed from the clock
in the source, are passed in as parameters. -/
def init_helper (env : Env) (name : String) (config : Config)
    (project : Project) (force : Bool) (year : Int) (formatted_date : String) :
    RunResult Unit × List Effect :=
  let project_files := project.files
  let project_config := project.config
  let license := match project.license with
    | some l => some l
    | none => config.license
  let license_contents := licenseContents license
  let version := match project_config with
    | some pc =>
      match pc.version with
      | some v => v
      | none => "0.1.0"
    | none => "0.1.0"
  let github_username := match config.author with
    | some a =>
      match a.github_username with
      | some g => g
      | none => ""
    | none => ""
  let custom_keys := customTable project.custom_keys
  let custom_keys_global := customTable config.custom_keys
  let keys := buildKeys name year formatted_date version github_username
    config.author license custom_keys custom_keys_global
  if env.pathExists name && !force then
    (RunResult.exited 0x0f00, [])
  else
    let es0 := [Effect.mkdir name]
    let es1 := match project_files.directories with
      | some directories => render_dirs directories keys name
      | none => []
    let filesPhase := match project_files.files with
      | some fileList => render_files env fileList keys name
      | none => (RunResult.ok [], [])
    match filesPhase.1 with
    | RunResult.exited c => (RunResult.exited c, es0 ++ es1 ++ filesPhase.2)
    | RunResult.panicked => (RunResult.panicked, es0 ++ es1 ++ filesPhase.2)
    | RunResult.ok files =>
      let licPhase := licenseStep env license_contents name keys
      match licPhase.1 with
      | RunResult.exited c =>
        (RunResult.exited c, es0 ++ es1 ++ filesPhase.2 ++ licPhase.2)
      | RunResult.panicked =>
        (RunResult.panicked, es0 ++ es1 ++ filesPhase.2 ++ licPhase.2)
      | RunResult.ok _ =>
        let readmePhase :=
          if project.with_readme then render_file env README name "README.md" keys
          else (RunResult.ok (), [])
        match readmePhase.1 with
        | RunResult.exited c =>
          (RunResult.exited c, es0 ++ es1 ++ filesPhase.2 ++ licPhase.2 ++ readmePhase.2)
        | RunResult.panicked =>
          (RunResult.panicked, es0 ++ es1 ++ filesPhase.2 ++ licPhase.2 ++ readmePhase.2)
        | RunResult.ok _ =>
          let keys := ctxInsert keys "files" (VarValue.list files)
          let tplPhase := render_templates env project.path name keys
            project_files.templates false
          match tplPhase.1 with
          | RunResult.exited c =>
            (RunResult.exited c,
              es0 ++ es1 ++ filesPhase.2 ++ licPhase.2 ++ readmePhase.2 ++ tplPhase.2)
          | RunResult.panicked =>
            (RunResult.panicked,
              es0 ++ es1 ++ filesPhase.2 ++ licPhase.2 ++ readmePhase.2 ++ tplPhase.2)
          | RunResult.ok _ =>
            let scrPhase := render_templates env project.path name keys
              project_files.scripts true
            match scrPhase.1 with
            | RunResult.exited c =>
              (RunResult.exited c,
                es0 ++ es1 ++ filesPhase.2 ++ licPhase.2 ++ readmePhase.2
                  ++ tplPhase.2 ++ scrPhase.2)
            | RunResult.panicked =>
              (RunResult.panicked,
                es0 ++ es1 ++ filesPhase.2 ++ licPhase.2 ++ readmePhase.2
                  ++ tplPhase.2 ++ scrPhase.2)
            | RunResult.ok _ =>
              let version_control :=
                resolveVersionControl project_config config.version_control
              let vcsPhase := vcsStep env version_control name
              (vcsPhase.1,
                es0 ++ es1 ++ filesPhase.2 ++ licPhase.2 ++ readmePhase.2
                  ++ tplPhase.2 ++ scrPhase.2 ++ vcsPhase.2)

/-- Global configuration loading from `types.rs` (`Config::from_path`):
a file that cannot be opened warns and falls back to the default
configuration; a file that opens but cannot be read exits with status 1;
a file whose contents fail to parse as TOML exits with status 1.  The
TOML parser is passed as an oracle. -/
def Config.from_path (file : ReadOutcome) (parse : String → Option Config) :
    RunResult Config :=
  match file with
  | ReadOutcome.openFail => RunResult.ok Config.default
  | ReadOutcome.readFail => RunResult.exited 1
  | ReadOutcome.content s =>
    match parse s with
    | some config => RunResult.ok config
    | none => RunResult.exited 1

/-- Global configuration loading from `lib.rs` (`read_toml_config`): a
file that cannot be opened, or that opens but cannot be read, warns and
falls back to the default configuration; a file whose contents fail to
parse as TOML exits with status `0x0f00`. -/
def read_toml_config (file : ReadOutcome) (parse : String → Option ConfigL) :
    RunResult ConfigL :=
  match file with
  | ReadOutcome.openFail => RunResult.ok ConfigL.default
  | ReadOutcome.readFail => RunResult.ok ConfigL.default
  | ReadOutcome.content s =>
    match parse s with
    | some config => RunResult.ok config
    | none => RunResult.exited 0x0f00

/-- Manifest loading from `types.rs` (`Project::from_path`): the local
`template.toml` is tried first, then the global template directory copy;
a manifest that cannot be opened in either place, cannot be read, or
fails to parse exits with status `0x0f00`; on success the resolved base
path is stored in the project. -/
def Project.from_path (localFile globalFile : ReadOutcome)
    (parse : String → Option Project) (directory global_directory : String) :
    RunResult Project :=
  let chosen := match localFile with
    | ReadOutcome.openFail => (globalFile, global_directory)
    | x => (x, directory)
  match chosen.1 with
  | ReadOutcome.openFail => RunResult.exited 0x0f00
  | ReadOutcome.readFail => RunResult.exited 0x0f00
  | ReadOutcome.content s =>
    match parse s with
    | some project => RunResult.ok { project with path := chosen.2 }
    | none => RunResult.exited 0x0f00

/-- Whether an effect is a template-source read. -/
def Effect.isRead : Effect → Bool
  | Effect.readTemplate _ => true
  | _ => false

/-- Looking up a key other than the inserted one passes through the
insertion. -/
theorem ctxLookup_insert_ne (ctx : Ctx) (k k' : String) (v : VarValue)
    (h : k' ≠ k) : ctxLookup (ctxInsert ctx k' v) k = ctxLookup ctx k := by
  simp [ctxInsert, ctxLookup, h]

/-- Folding a custom-key table not containing a key leaves that key's
lookup unchanged. -/
theorem insertCustoms_lookup_not_mem (table : List (String × TomlV))
    (k : String) (h : k ∉ table.map Prod.fst) :
    ∀ ctx : Ctx, ctxLookup (insertCustoms ctx table) k = ctxLookup ctx k := by
  induction table with
  | nil => intro ctx; rfl
  | cons hd tl ih =>
    obtain ⟨k1, v1⟩ := hd
    simp only [List.map_cons, List.mem_cons, not_or] at h
    obtain ⟨hk1, htl⟩ := h
    intro ctx
    cases v1 with
    | str s =>
      exact (ih htl (ctxInsert ctx k1 (VarValue.str s))).trans
        (ctxLookup_insert_ne ctx k k1 (VarValue.str s) fun e => hk1 e.symm)
    | int n => exact ih htl ctx
    | boolean b => exact ih htl ctx
    | table t => exact ih htl ctx
    | other => exact ih htl ctx

/-- Folding a custom-key table with unique keys binds a string-valued
key of the table to its table value. -/
theorem insertCustoms_lookup_mem (table : List (String × TomlV))
    (k v : String) :
    (table.map Prod.fst).Nodup → (k, TomlV.str v) ∈ table →
    ∀ ctx : Ctx, ctxLookup (insertCustoms ctx table) k = some (VarValue.str v) := by
  induction table with
  | nil => intro _ hmem; cases hmem
  | cons hd tl ih =>
    intro hnd hmem ctx
    obtain ⟨k1, v1⟩ := hd
    simp only [List.map_cons, List.nodup_cons] at hnd
    obtain ⟨hk1, hnd'⟩ := hnd
    rcases List.mem_cons.mp hmem with heq | hmem'
    · injection heq with hke hve
      subst hke
      subst hve
      exact (insertCustoms_lookup_not_mem tl k hk1
          (ctxInsert ctx k (VarValue.str v))).trans
        (by simp [ctxInsert, ctxLookup])
    · cases v1 with
      | str s => exact ih hnd' hmem' (ctxInsert ctx k1 (VarValue.str s))
      | int n => exact ih hnd' hmem' ctx
      | boolean b => exact ih hnd' hmem' ctx
      | table t => exact ih hnd' hmem' ctx
      | other => exact ih hnd' hmem' ctx

/-- Every effect emitted by the read phase is a read. -/
theorem readAll_effects_are_reads (env : Env) (ps : List String) :
    ∀ e ∈ (readAll env ps).2, e.isRead = true := by
  induction ps with
  | nil => intro e he; cases he
  | cons p rest ih =>
    intro e he
    cases hp : env.readTemplate p with
    | openFail => simp [readAll, hp] at he
    | readFail =>
      simp [readAll, hp] at he
      subst he; rfl
    | content s =>
      cases h2 : (readAll env rest).1 <;>
        · simp [readAll, hp, h2] at he
          rcases he with rfl | he'
          · rfl
          · exact ih e he'

/-- A successful read phase means every listed source produced content. -/
theorem readAll_ok_reads (env : Env) (ps : List String) :
    ∀ ss, (readAll env ps).1 = RunResult.ok ss →
    ∀ p ∈ ps, ∃ s, env.readTemplate p = ReadOutcome.content s := by
  induction ps with
  | nil => intro ss _ p hp; cases hp
  | cons q rest ih =>
    intro ss h p hp
    cases hq : env.readTemplate q with
    | openFail => simp [readAll, hq] at h
    | readFail => simp [readAll, hq] at h
    | content s =>
      rcases List.mem_cons.mp hp with rfl | hp'
      · exact ⟨s, hq⟩
      · cases h2 : (readAll env rest).1 with
        | ok ss' => exact ih ss' h2 p hp'
        | exited c => simp [readAll, hq, h2] at h
        | panicked => simp [readAll, hq, h2] at h

/-- A successful read phase returns one content string per listed source. -/
theorem readAll_ok_length (env : Env) (ps : List String) :
    ∀ ss, (readAll env ps).1 = RunResult.ok ss → ss.length = ps.length := by
  induction ps with
  | nil =>
    intro ss h
    simp only [readAll] at h
    injection h with h'
    subst h'; rfl
  | cons q rest ih =>
    intro ss h
    cases hq : env.readTemplate q with
    | openFail => simp [readAll, hq] at h
    | readFail => simp [readAll, hq] at h
    | content s =>
      cases h2 : (readAll env rest).1 with
      | ok ss' =>
        simp only [readAll, hq, h2] at h
        injection h with h'
        subst h'
        simp [ih ss' h2]
      | exited c => simp [readAll, hq, h2] at h
      | panicked => simp [readAll, hq, h2] at h

/-- No effect emitted by the write phase is a read. -/
theorem writeAll_effects_not_reads (env : Env) (executable : Bool)
    (prs : List (String × String)) :
    ∀ e ∈ (writeAll env executable prs).2, e.isRead = false := by
  induction prs with
  | nil => intro e he; cases he
  | cons pr rest ih =>
    obtain ⟨path, contents⟩ := pr
    intro e he
    by_cases hc : env.createOk path = true
    · cases executable with
      | false =>
        simp [writeAll, hc] at he
        rcases he with rfl | rfl | he''
        · rfl
        · rfl
        · exact ih e he''
      | true =>
        simp [writeAll, hc] at he
        rcases he with rfl | rfl | rfl | he''
        · rfl
        · rfl
        · rfl
        · exact ih e he''
    · simp [writeAll, hc] at he

/-- A successful write phase over zipped names and contents of equal
length means every destination creation succeeded. -/
theorem writeAll_ok_creates (env : Env) (executable : Bool) :
    ∀ (ds cs : List String), ds.length = cs.length →
    (writeAll env executable (ds.zip cs)).1 = RunResult.ok () →
    ∀ d ∈ ds, env.createOk d = true := by
  intro ds
  induction ds with
  | nil => intro cs _ _ d hd; cases hd
  | cons d0 drest ih =>
    intro cs hlen hok d hd
    cases cs with
    | nil => simp at hlen
    | cons c0 crest =>
      by_cases hc : env.createOk d0 = true
      · rcases List.mem_cons.mp hd with rfl | hd'
        · exact hc
        · refine ih crest (by simpa using hlen) ?_ d hd'
          simpa [writeAll, hc] using hok
      · simp [writeAll, hc] at hok

/-- Test environment in which every filesystem operation succeeds. -/
def env1 : Env :=
  { pathExists := fun _ => false
    readTemplate := fun _ => ReadOutcome.content "hello"
    createOk := fun _ => true
    writeOk := fun _ => true
    spawnOk := fun _ => true }

/-- Test environment in which writing to a successfully created file
fails while everything else succeeds. -/
def env0 : Env :=
  { pathExists := fun _ => false
    readTemplate := fun _ => ReadOutcome.content "hello"
    createOk := fun _ => true
    writeOk := fun _ => false
    spawnOk := fun _ => true }

/-- Test environment in which every target path already exists. -/
def env2 : Env :=
  { pathExists := fun _ => true
    readTemplate := fun _ => ReadOutcome.openFail
    createOk := fun _ => false
    writeOk := fun _ => false
    spawnOk := fun _ => false }

/-- Test environment in which opening any template source fails. -/
def envOpenFail : Env :=
  { pathExists := fun _ => false
    readTemplate := fun _ => ReadOutcome.openFail
    createOk := fun _ => true
    writeOk := fun _ => true
    spawnOk := fun _ => true }

/-- Test project with an empty file tree. -/
def project0 : Project :=
  { license := none
    with_readme := false
    files := { files := none, directories := none, templates := none, scripts := none }
    config := none
    custom_keys := none
    path := "tpl" }

/-- C1, counterexample: the claim says a global settings file that exists
but fails to parse as TOML is non-fatal; in the code
(`Config::from_path`, `types.rs` lines 227-238) a parse failure exits
with status 1 instead of falling back to the default configuration. -/
theorem c1_counterexample :
    Config.from_path (ReadOutcome.content "license = [")
      (fun _ => (none : Option Config)) = RunResult.exited 1 := rfl

/-- C1 (amended): only a global settings file that cannot be opened is
non-fatal (default configuration with a warning); a global settings file
that opens but fails to parse as TOML is fatal in both variants, and a
read failure after a successful open is fatal in the `types.rs` variant
while the `lib.rs` variant falls back to defaults; a manifest that is
missing or fails to read or parse is always fatal. -/
theorem c1_config_error_handling
    (parse : String → Option Config) (parseL : String → Option ConfigL)
    (parseP : String → Option Project) (s sl sp : String) (g : ReadOutcome)
    (d gd : String)
    (h1 : parse s = none) (h2 : parseL sl = none) (h3 : parseP sp = none) :
    Config.from_path ReadOutcome.openFail parse = RunResult.ok Config.default
  ∧ Config.from_path (ReadOutcome.content s) parse = RunResult.exited 1
  ∧ Config.from_path ReadOutcome.readFail parse = RunResult.exited 1
  ∧ read_toml_config ReadOutcome.openFail parseL = RunResult.ok ConfigL.default
  ∧ read_toml_config ReadOutcome.readFail parseL = RunResult.ok ConfigL.default
  ∧ read_toml_config (ReadOutcome.content sl) parseL = RunResult.exited 0x0f00
  ∧ Project.from_path ReadOutcome.openFail ReadOutcome.openFail parseP d gd
      = RunResult.exited 0x0f00
  ∧ Project.from_path ReadOutcome.readFail g parseP d gd = RunResult.exited 0x0f00
  ∧ Project.from_path (ReadOutcome.content sp) g parseP d gd
      = RunResult.exited 0x0f00 := by
  refine ⟨rfl, ?_, rfl, rfl, rfl, ?_, rfl, rfl, ?_⟩
  · simp [Config.from_path, h1]
  · simp [read_toml_config, h2]
  · simp [Project.from_path, h3]

/-- C1, witness: the amended error-handling behavior at concrete inputs,
with a parser that rejects every string. -/
theorem c1_witness :
    ((fun _ : String => (none : Option Config)) "x" = none)
  ∧ (Config.from_path ReadOutcome.openFail (fun _ => (none : Option Config))
      = RunResult.ok Config.default
    ∧ Config.from_path (ReadOutcome.content "x") (fun _ => (none : Option Config))
      = RunResult.exited 1
    ∧ Config.from_path ReadOutcome.readFail (fun _ => (none : Option Config))
      = RunResult.exited 1
    ∧ read_toml_config ReadOutcome.openFail (fun _ => (none : Option ConfigL))
      = RunResult.ok ConfigL.default
    ∧ read_toml_config ReadOutcome.readFail (fun _ => (none : Option ConfigL))
      = RunResult.ok ConfigL.default
    ∧ read_toml_config (ReadOutcome.content "y") (fun _ => (none : Option ConfigL))
      = RunResult.exited 0x0f00
    ∧ Project.from_path ReadOutcome.openFail ReadOutcome.openFail
        (fun _ => (none : Option Project)) "d" "gd" = RunResult.exited 0x0f00
    ∧ Project.from_path ReadOutcome.readFail ReadOutcome.openFail
        (fun _ => (none : Option Project)) "d" "gd" = RunResult.exited 0x0f00
    ∧ Project.from_path (ReadOutcome.content "z") ReadOutcome.openFail
        (fun _ => (none : Option Project)) "d" "gd" = RunResult.exited 0x0f00) :=
  ⟨rfl, c1_config_error_handling (fun _ => none) (fun _ => none) (fun _ => none)
    "x" "y" "z" ReadOutcome.openFail "d" "gd" rfl rfl rfl⟩

/-- C2, counterexample: the claim says Git initialization is an
in-process repository-creation call with no external process dependency;
in `repo.rs` lines 5-30, `git_init` spawns the external program `sh`
with a `-c` command string, exactly as the other tools do. -/
theorem c2_counterexample :
    vcsDispatch env1 VersionControl.git "proj"
      = (RunResult.ok (),
        [Effect.spawn "sh" ["-c", "cd proj&&git init && git add *"]]) := rfl

/-- C2 (amended): all four version-control tools, Git included, are
initialized by spawning a shell (`sh -c`) that runs the tool's init
operation followed by an add-all operation as a single command sequence
scoped to the target directory by a leading `cd`; Git has the same
external-process dependency as the others. -/
theorem c2_vcs_shell_dispatch (env : Env) (name : String)
    (h : env.spawnOk "sh" = true) :
    vcsDispatch env VersionControl.git name
      = (RunResult.ok (), [Effect.spawn "sh" ["-c", gitInitCmd name]])
  ∧ vcsDispatch env VersionControl.hg name
      = (RunResult.ok (), [Effect.spawn "sh" ["-c", hgInitCmd name]])
  ∧ vcsDispatch env VersionControl.mercurial name
      = (RunResult.ok (), [Effect.spawn "sh" ["-c", hgInitCmd name]])
  ∧ vcsDispatch env VersionControl.pijul name
      = (RunResult.ok (), [Effect.spawn "sh" ["-c", pijulInitCmd name]])
  ∧ vcsDispatch env VersionControl.darcs name
      = (RunResult.ok (), [Effect.spawn "sh" ["-c", darcsInitCmd name]])
  ∧ gitInitCmd name = "cd " ++ name ++ "&&" ++ "git init && git add *" := by
  refine ⟨?_, ?_, ?_, ?_, ?_, rfl⟩ <;>
    simp [vcsDispatch, runSpawn, gitInitSpawn, hgInitSpawn, pijulInitSpawn,
      darcsInitSpawn, h]

/-- C2, witness: the shell dispatch at a concrete project name in an
environment in which spawning succeeds. -/
theorem c2_witness :
    env1.spawnOk "sh" = true
  ∧ vcsDispatch env1 VersionControl.git "proj"
      = (RunResult.ok (), [Effect.spawn "sh" ["-c", gitInitCmd "proj"]]) :=
  ⟨rfl, (c2_vcs_shell_dispatch env1 "proj" rfl).1⟩

/-- C8, counterexample: the claim says that when only the global settings
specify a version-control tool, the resolved value is the global one; in
the `lib.rs` variant (lines 283-313), a manifest carrying a config
section that omits `version_control` causes the global value to be
ignored and no tool to be selected, while the `util.rs` variant resolves
the global tool. -/
theorem c8_counterexample :
    vcSelectedLib (some { version_control := none, version := some "0.2.0" })
      (some "git") = none
  ∧ resolveVersionControl (some { version_control := none, version := some "0.2.0" })
      (some VersionControl.git) = some VersionControl.git := ⟨rfl, rfl⟩

/-- C8 (amended): in the `util.rs` pipeline, version control resolves to
the manifest's value when the manifest specifies one, else to the global
value, else to none, in which case the VCS step does nothing; in the
`lib.rs` variant the global value is used only when the manifest has no
config section at all — a config section without a `version_control`
field makes the step skip even when a global value is present. -/
theorem c8_version_control_resolution (vc gvc : VersionControl)
    (ver vstr : Option String) (g : Option VersionControl) (gs : String) :
    resolveVersionControl (some { version_control := some vc, version := ver }) g
      = some vc
  ∧ resolveVersionControl none (some gvc) = some gvc
  ∧ resolveVersionControl (some { version_control := none, version := ver })
      (some gvc) = some gvc
  ∧ resolveVersionControl none none = none
  ∧ (∀ env name, vcsStep env none name = (RunResult.ok (), []))
  ∧ vcSelectedLib (some { version_control := none, version := vstr }) (some gs)
      = none
  ∧ vcSelectedLib none (some gs) = some gs :=
  ⟨rfl, rfl, rfl, rfl, fun _ _ => rfl, rfl, rfl⟩

/-- C9: in the `lib.rs` pipeline, requesting the license name
`AllRightsReserved` — from the manifest or the global settings — selects
the built-in BSD3 license text, not the built-in AllRightsReserved text;
only the unrecognized-string fallback selects the AllRightsReserved
text. -/
theorem c9_all_rights_reserved_selects_bsd3 (g : Option String) :
    licenseResolutionLib (some "AllRightsReserved") g = (some BSD3, "AllRightsReserved")
  ∧ licenseResolutionLib none (some "AllRightsReserved") = (some BSD3, "AllRightsReserved")
  ∧ licenseFromStr "AllRightsReserved" = (some BSD3, "AllRightsReserved")
  ∧ BSD3 ≠ ALL_RIGHTS_RESERVED := by
  refine ⟨rfl, rfl, rfl, by decide⟩

/-- C3, counterexample: the claim says every write failure in the
Template Renderer is fatal; in `render.rs` the error of the write call on
a successfully created destination is discarded (`let _ = file.write`),
so a run whose destination is created but whose write fails completes
normally instead of terminating. -/
theorem c3_counterexample :
    (render_templates env0 "p" "n" [] (some ["t.txt"]) false).1 = RunResult.ok ()
  ∧ Effect.fileWrite "n/t.txt" "hello" false
      ∈ (render_templates env0 "p" "n" [] (some ["t.txt"]) false).2 := by
  refine ⟨by decide, by decide⟩

/-- C3 (amended): in the Template Renderer, every source-read failure
and every destination-creation failure is fatal and aborts the remaining
pipeline immediately (leaving earlier output on disk); only the error of
the write call on an already created destination is discarded and lets
the run continue.  Stated contrapositively: a normally completing call
read every listed source successfully and created every destination
successfully. -/
theorem c3_render_failures_fatal (env : Env) (project_path name : String)
    (keys : Ctx) (ts : List String) (executable : Bool)
    (h : (render_templates env project_path name keys (some ts) executable).1
      = RunResult.ok ()) :
    (∀ t ∈ ts, ∃ s, env.readTemplate (pathJoin project_path t) = ReadOutcome.content s)
  ∧ (∀ t ∈ ts, env.createOk (renderStr keys (pathJoin name t)) = true) := by
  unfold render_templates at h
  cases hr : (readAll env (ts.map fun file => pathJoin project_path file)).1 with
  | exited c => simp [hr] at h
  | panicked => simp [hr] at h
  | ok template_files =>
    constructor
    · intro t ht
      exact readAll_ok_reads env _ template_files hr (pathJoin project_path t)
        (List.mem_map_of_mem _ ht)
    · have hok : (writeAll env executable
          ((ts.map fun file => renderStr keys (pathJoin name file)).zip
            (template_files.map fun file => renderStr keys file))).1
          = RunResult.ok () := by
        simpa [hr] using h
      have hlen : (ts.map fun file => renderStr keys (pathJoin name file)).length
          = (template_files.map fun file => renderStr keys file).length := by
        simp [readAll_ok_length env _ template_files hr]
      intro t ht
      exact writeAll_ok_creates env executable _ _ hlen hok _
        (List.mem_map_of_mem _ ht)

/-- C3, witness: in an environment in which every operation succeeds,
a one-template call completes normally, so the theorem yields that its
source was read and its destination created. -/
theorem c3_witness :
    (render_templates env1 "p" "n" [] (some ["t.txt"]) false).1 = RunResult.ok ()
  ∧ ((∀ t ∈ ["t.txt"], ∃ s, env1.readTemplate (pathJoin "p" t) = ReadOutcome.content s)
    ∧ (∀ t ∈ ["t.txt"], env1.createOk (renderStr [] (pathJoin "n" t)) = true)) :=
  ⟨by decide, c3_render_failures_fatal env1 "p" "n" [] ["t.txt"] false (by decide)⟩

/-- C4, counterexample: the claim says an unrecognized license string
results in a warning with no LICENSE file written and no built-in
license silently substituted; in the `lib.rs` variant (lines 148-149),
an unrecognized license string selects the built-in AllRightsReserved
text as a default and the license-emission step then writes it as
`LICENSE`. -/
theorem c4_counterexample :
    licenseResolutionLib (some "WTFPL") none
      = (some ALL_RIGHTS_RESERVED, "AllRightsReserved")
  ∧ licenseStep env1 (licenseResolutionLib (some "WTFPL") none).1 "proj" []
      = (RunResult.ok (),
        [Effect.createFile "proj/LICENSE",
         Effect.fileWrite "proj/LICENSE" ALL_RIGHTS_RESERVED true]) := by
  refine ⟨rfl, by decide⟩

/-- C4 (amended): in the `util.rs` pipeline an absent or Unknown resolved
license selects no contents and the license-emission step does nothing
(no LICENSE file is written); the `lib.rs` variant instead resolves any
unrecognized license string to the built-in AllRightsReserved text, which
it then emits. -/
theorem c4_unknown_license_skips_emission (env : Env) (name : String)
    (keys : Ctx) (license : Option License) (s : String)
    (hlic : license = none ∨ license = some License.unknown)
    (h1 : s ≠ "BSD3") (h2 : s ≠ "BSD") (h3 : s ≠ "MIT") (h4 : s ≠ "GPL3")
    (h5 : s ≠ "AllRightsReserved") :
    licenseContents license = none
  ∧ licenseStep env (licenseContents license) name keys = (RunResult.ok (), [])
  ∧ licenseFromStr s = (some ALL_RIGHTS_RESERVED, "AllRightsReserved") := by
  rcases hlic with rfl | rfl <;>
    exact ⟨rfl, rfl, by simp [licenseFromStr, h1, h2, h3, h4, h5]⟩

/-- C4, witness: the skipped emission for an absent license and the
`lib.rs` fallback for a concrete unrecognized string. -/
theorem c4_witness :
    licenseContents none = none
  ∧ licenseStep env1 (licenseContents none) "proj" [] = (RunResult.ok (), [])
  ∧ licenseFromStr "WTFPL" = (some ALL_RIGHTS_RESERVED, "AllRightsReserved") :=
  c4_unknown_license_skips_emission env1 "proj" [] none "WTFPL" (Or.inl rfl)
    (by decide) (by decide) (by decide) (by decide) (by decide)

/-- C6: when the target directory already exists and the force flag is
unset, `init_helper` (`util.rs` lines 163-171) aborts with exit status
`0x0f00` before emitting any filesystem effect: the existence check
precedes every directory or file creation of the run. -/
theorem c6_target_exists_aborts_before_mutation (env : Env) (name : String)
    (config : Config) (project : Project) (year : Int) (date : String)
    (h : env.pathExists name = true) :
    init_helper env name config project false year date
      = (RunResult.exited 0x0f00, []) := by
  simp [init_helper, h]

/-- C6, witness: the abort at a concrete already-existing target. -/
theorem c6_witness :
    env2.pathExists "proj" = true
  ∧ init_helper env2 "proj" Config.default project0 false 2026 "9-11-2026"
      = (RunResult.exited 0x0f00, []) :=
  ⟨rfl, c6_target_exists_aborts_before_mutation env2 "proj" Config.default
    project0 2026 "9-11-2026" rfl⟩

/-- C10: in the Template Renderer, every emitted read effect precedes
every non-read effect — all listed sources are opened and fully read
before any destination is created or written — and consequently, when
some listed source cannot be opened, the call does not complete normally
and its whole effect trace consists of reads only (no output was
written). -/
theorem c10_reads_precede_writes (env : Env) (project_path name : String)
    (keys : Ctx) (ts : List String) (executable : Bool) :
    (∃ r w, (render_templates env project_path name keys (some ts) executable).2
        = r ++ w
      ∧ (∀ e ∈ r, e.isRead = true) ∧ (∀ e ∈ w, e.isRead = false))
  ∧ ((∃ t ∈ ts, env.readTemplate (pathJoin project_path t) = ReadOutcome.openFail) →
      (render_templates env project_path name keys (some ts) executable).1
        ≠ RunResult.ok ()
    ∧ ∀ e ∈ (render_templates env project_path name keys (some ts) executable).2,
        e.isRead = true) := by
  cases hr : (readAll env (ts.map fun file => pathJoin project_path file)).1 with
  | ok template_files =>
    constructor
    · refine ⟨(readAll env (ts.map fun file => pathJoin project_path file)).2,
        (writeAll env executable
          ((ts.map fun file => renderStr keys (pathJoin name file)).zip
            (template_files.map fun file => renderStr keys file))).2,
        ?_, readAll_effects_are_reads env _, writeAll_effects_not_reads env _ _⟩
      simp [render_templates, hr]
    · rintro ⟨t, ht, hof⟩
      obtain ⟨s, hs⟩ := readAll_ok_reads env _ template_files hr
        (pathJoin project_path t) (List.mem_map_of_mem _ ht)
      rw [hof] at hs
      cases hs
  | exited c =>
    constructor
    · refine ⟨(readAll env (ts.map fun file => pathJoin project_path file)).2, [],
        ?_, readAll_effects_are_reads env _, by intro e he; cases he⟩
      simp [render_templates, hr]
    · intro _
      constructor
      · simp [render_templates, hr]
      · intro e he
        refine readAll_effects_are_reads env
          (ts.map fun file => pathJoin project_path file) e ?_
        simpa [render_templates, hr] using he
  | panicked =>
    constructor
    · refine ⟨(readAll env (ts.map fun file => pathJoin project_path file)).2, [],
        ?_, readAll_effects_are_reads env _, by intro e he; cases he⟩
      simp [render_templates, hr]
    · intro _
      constructor
      · simp [render_templates, hr]
      · intro e he
        refine readAll_effects_are_reads env
          (ts.map fun file => pathJoin project_path file) e ?_
        simpa [render_templates, hr] using he

/-- C10, witness: a concrete call whose single source cannot be opened
does not complete normally and emits only read effects. -/
theorem c10_witness :
    (∃ t ∈ ["t.txt"], envOpenFail.readTemplate (pathJoin "p" t) = ReadOutcome.openFail)
  ∧ ((render_templates envOpenFail "p" "n" [] (some ["t.txt"]) false).1
      ≠ RunResult.ok ()
    ∧ ∀ e ∈ (render_templates envOpenFail "p" "n" [] (some ["t.txt"]) false).2,
        e.isRead = true) :=
  ⟨⟨"t.txt", by decide, rfl⟩,
    (c10_reads_precede_writes envOpenFail "p" "n" [] ["t.txt"] false).2
      ⟨"t.txt", by decide, rfl⟩⟩

/-- C5: for a custom key with string values in both the manifest's and
the global settings' custom-key tables (and not colliding with a
reserved key, which would be inserted later), the substitution context
binds the global table's value: manifest entries are inserted first,
then global entries, so the global value is retained on collision — both
in the context as built and in the context later extended with the
`files` key. -/
theorem c5_global_custom_keys_override (name : String) (year : Int)
    (date version gh : String) (author : Option Author)
    (license : Option License) (tm tg : List (String × TomlV))
    (k v vG : String) (files : List String)
    (hres : k ∉ reservedKeyNames) (hfiles : k ≠ "files")
    (hnd : (tg.map Prod.fst).Nodup)
    ( _hm : (k, TomlV.str v) ∈ tm) (hg : (k, TomlV.str vG) ∈ tg) :
    ctxLookup (buildKeys name year date version gh author license
      (some tm) (some tg)) k = some (VarValue.str vG)
  ∧ ctxLookup (ctxInsert (buildKeys name year date version gh author license
      (some tm) (some tg)) "files" (VarValue.list files)) k
      = some (VarValue.str vG) := by
  simp only [reservedKeyNames, List.mem_cons, List.mem_singleton, not_or,
    List.not_mem_nil] at hres
  obtain ⟨h1, h2, h3, h4, h5, h6, h7, h8, h9, h10, -⟩ := hres
  have e1 : "project" ≠ k := fun e => h1 e.symm
  have e2 : "Project" ≠ k := fun e => h2 e.symm
  have e3 : "ProjectCamelCase" ≠ k := fun e => h3 e.symm
  have e4 : "year" ≠ k := fun e => h4 e.symm
  have e5 : "name" ≠ k := fun e => h5 e.symm
  have e6 : "version" ≠ k := fun e => h6 e.symm
  have e7 : "email" ≠ k := fun e => h7 e.symm
  have e8 : "github_username" ≠ k := fun e => h8 e.symm
  have e9 : "license" ≠ k := fun e => h9 e.symm
  have e10 : "date" ≠ k := fun e => h10 e.symm
  have ef : "files" ≠ k := fun e => hfiles e.symm
  have base : ctxLookup (insertCustoms (insertCustoms [] tm) tg) k
      = some (VarValue.str vG) :=
    insertCustoms_lookup_mem tg k vG hnd hg (insertCustoms [] tm)
  constructor <;>
    · rcases license with - | l <;> rcases author with - | a <;>
        simpa [buildKeys, ctxInsert, ctxLookup, e1, e2, e3, e4, e5, e6, e7,
          e8, e9, e10, ef] using base

/-- C5, witness: a concrete custom key defined in both tables resolves
to the global table's value. -/
theorem c5_witness :
    "custom" ∉ reservedKeyNames
  ∧ (ctxLookup (buildKeys "proj" 2026 "9-11-2026" "0.1.0" "" none none
      (some [("custom", TomlV.str "manifestValue")])
      (some [("custom", TomlV.str "globalValue")])) "custom"
      = some (VarValue.str "globalValue")
    ∧ ctxLookup (ctxInsert (buildKeys "proj" 2026 "9-11-2026" "0.1.0" "" none none
      (some [("custom", TomlV.str "manifestValue")])
      (some [("custom", TomlV.str "globalValue")])) "files" (VarValue.list []))
      "custom" = some (VarValue.str "globalValue")) :=
  ⟨by decide,
    c5_global_custom_keys_override "proj" 2026 "9-11-2026" "0.1.0" "" none none
      [("custom", TomlV.str "manifestValue")] [("custom", TomlV.str "globalValue")]
      "custom" "manifestValue" "globalValue" [] (by decide) (by decide)
      (by simp) (by simp) (by simp)⟩

/-- C7: every reserved context key (`project`, `Project`,
`ProjectCamelCase`, `year`, `name`, `version`, `email`,
`github_username`, `license`, `date`) is bound in the final substitution
context to its reserved value, whatever custom keys the manifest or
global tables define, in every run: custom keys are merged in before the
reserved keys are inserted, so reserved keys cannot be shadowed.  Nine
reserved keys are inserted unconditionally; the `license` key is
inserted exactly when a license was resolved, and whenever it is, it too
binds its reserved value. -/
theorem c7_reserved_keys_authoritative (name : String) (year : Int)
    (date version gh : String) (author : Option Author)
    (license : Option License)
    (custom customGlobal : Option (List (String × TomlV)))
    (files : List String) :
    ctxLookup (ctxInsert (buildKeys name year date version gh author license
      custom customGlobal) "files" (VarValue.list files)) "project"
      = some (VarValue.str name)
  ∧ ctxLookup (ctxInsert (buildKeys name year date version gh author license
      custom customGlobal) "files" (VarValue.list files)) "Project"
      = some (VarValue.str (toCapitalized name))
  ∧ ctxLookup (ctxInsert (buildKeys name year date version gh author license
      custom customGlobal) "files" (VarValue.list files)) "ProjectCamelCase"
      = some (VarValue.str (toUpperCamelCase name))
  ∧ ctxLookup (ctxInsert (buildKeys name year date version gh author license
      custom customGlobal) "files" (VarValue.list files)) "year"
      = some (VarValue.int year)
  ∧ ctxLookup (ctxInsert (buildKeys name year date version gh author license
      custom customGlobal) "files" (VarValue.list files)) "version"
      = some (VarValue.str version)
  ∧ ctxLookup (ctxInsert (buildKeys name year date version gh author license
      custom customGlobal) "files" (VarValue.list files)) "github_username"
      = some (VarValue.str gh)
  ∧ ctxLookup (ctxInsert (buildKeys name year date version gh author license
      custom customGlobal) "files" (VarValue.list files)) "date"
      = some (VarValue.str date)
  ∧ ctxLookup (ctxInsert (buildKeys name year date version gh author license
      custom customGlobal) "files" (VarValue.list files)) "name"
      = some (VarValue.str (match author with | some a => a.name | none => ""))
  ∧ ctxLookup (ctxInsert (buildKeys name year date version gh author license
      custom customGlobal) "files" (VarValue.list files)) "email"
      = some (VarValue.str (match author with | some a => a.email | none => ""))
  ∧ (∀ l, license = some l →
      ctxLookup (ctxInsert (buildKeys name year date version gh author license
        custom customGlobal) "files" (VarValue.list files)) "license"
        = some (VarValue.str l.display)) := by
  cases license with
  | none =>
    cases author with
    | none =>
      exact ⟨rfl, rfl, rfl, rfl, rfl, rfl, rfl, rfl, rfl, fun l hl => nomatch hl⟩
    | some a =>
      exact ⟨rfl, rfl, rfl, rfl, rfl, rfl, rfl, rfl, rfl, fun l hl => nomatch hl⟩
  | some l0 =>
    cases author with
    | none =>
      exact ⟨rfl, rfl, rfl, rfl, rfl, rfl, rfl, rfl, rfl, fun l hl => by cases hl; rfl⟩
    | some a =>
      exact ⟨rfl, rfl, rfl, rfl, rfl, rfl, rfl, rfl, rfl, fun l hl => by cases hl; rfl⟩

/-- C7, witness: the reserved bindings at concrete inputs whose custom
tables try to shadow reserved keys, exercising both the unconditional
`project` binding and the resolved-license `license` binding. -/
theorem c7_witness :
    ctxLookup (ctxInsert (buildKeys "proj" 2026 "9-11-2026" "0.1.0" "octo"
      (some { name := "Ada", email := "ada@example.com", github_username := some "octo" })
      (some License.mit)
      (some [("project", TomlV.str "shadow"), ("license", TomlV.str "shadow")])
      (some [("year", TomlV.str "shadow"), ("name", TomlV.str "shadow")]))
      "files" (VarValue.list [])) "project" = some (VarValue.str "proj")
  ∧ ctxLookup (ctxInsert (buildKeys "proj" 2026 "9-11-2026" "0.1.0" "octo"
      (some { name := "Ada", email := "ada@example.com", github_username := some "octo" })
      (some License.mit)
      (some [("project", TomlV.str "shadow"), ("license", TomlV.str "shadow")])
      (some [("year", TomlV.str "shadow"), ("name", TomlV.str "shadow")]))
      "files" (VarValue.list [])) "license"
      = some (VarValue.str License.mit.display) :=
  ⟨(c7_reserved_keys_authoritative "proj" 2026 "9-11-2026" "0.1.0" "octo"
      (some { name := "Ada", email := "ada@example.com", github_username := some "octo" })
      (some License.mit)
      (some [("project", TomlV.str "shadow"), ("license", TomlV.str "shadow")])
      (some [("year", TomlV.str "shadow"), ("name", TomlV.str "shadow")]) []).1,
    (c7_reserved_keys_authoritative "proj" 2026 "9-11-2026" "0.1.0" "octo"
      (some { name := "Ada", email := "ada@example.com", github_username := some "octo" })
      (some License.mit)
      (some [("project", TomlV.str "shadow"), ("license", TomlV.str "shadow")])
      (some [("year", TomlV.str "shadow"), ("name", TomlV.str "shadow")])
      []).2.2.2.2.2.2.2.2.2 License.mit rfl⟩

end ProjectInit
